import Mathlib

/-!
Verification of the request-handling surface of the store app
(`my_ecommerce_app/store/views.py`), as a shallow embedding in Lean 4.

The embedding translates each viewset handler of `views.py` into a pure
Lean function over an explicit database state.  The ORM models and the
serializers live outside the provided sources, so their shapes are
modelled from the specification (section 3 of the spec document); each
such definition carries a doc comment saying so.  Framework behaviour
that the handlers rely on (DRF mixins, Django `QuerySet` methods) is
embedded with its documented semantics.
-/

namespace StoreApp

/-- HTTP request methods relevant to the routed handlers. -/
inductive Method where
  | GET
  | POST
  | PUT
  | PATCH
  | DELETE
  | HEAD
  | OPTIONS
  deriving DecidableEq, Repr

/-- The requesting user as the permission checks and handlers see it:
`request.user.id`, `request.user.is_staff`, `request.user.is_authenticated`. -/
structure User where
  id : Nat
  is_staff : Bool
  is_authenticated : Bool
  deriving DecidableEq, Repr

/-- Modelled from the spec: a `Product` row. `views.py` only uses its
identity and (for the collection-deletion guard) the collection it
belongs to ("Product belongs to Collection"). -/
structure Product where
  id : Nat
  collection_id : Option Nat
  deriving DecidableEq, Repr

/-- Modelled from the spec: a `Collection` row; only its identity is used. -/
structure Collection where
  id : Nat
  deriving DecidableEq, Repr

/-- Modelled from the spec: an `OrderItem` row. "OrderItem belongs to Order
and references Product"; the product-deletion guard filters on
`product_id`. -/
structure OrderItem where
  id : Nat
  order_id : Nat
  product_id : Nat
  deriving DecidableEq, Repr

/-- Modelled from the spec: a `Review` row. "Review belongs to Product";
`ReviewViewSet.get_queryset` filters on `product_id`. -/
structure Review where
  id : Nat
  product_id : Nat
  deriving DecidableEq, Repr

/-- Modelled from the spec: a `CartItem` row. "CartItem belongs to Cart and
references Product"; `CartItemViewSet.get_queryset` filters on `cart_id`. -/
structure CartItem where
  id : Nat
  cart_id : Nat
  product_id : Nat
  quantity : Nat
  deriving DecidableEq, Repr

/-- Modelled from the spec: the profile payload of a customer record, the
part of `Customer` exchanged through `CustomerSerializer` beyond identity. -/
structure CustomerProfile where
  phone : String
  birth_date : Option String
  deriving DecidableEq, Repr

/-- Modelled from the spec: a `Customer` row. "Customer belongs to a user
account"; the `me` action looks it up by `user_id`. -/
structure Customer where
  id : Nat
  user_id : Nat
  profile : CustomerProfile
  deriving DecidableEq, Repr

/-- Modelled from the spec: an `Order` row. "Order belongs to Customer";
`OrderViewSet.get_queryset` filters on `customer_id`. -/
structure Order where
  id : Nat
  customer_id : Nat
  deriving DecidableEq, Repr

/-- The database state the handlers read and write, one table per entity
named in the spec data model. -/
structure DB where
  products : List Product
  collections : List Collection
  orderItems : List OrderItem
  reviews : List Review
  cartItems : List CartItem
  customers : List Customer
  orders : List Order
  deriving DecidableEq, Repr

/-- Exceptions the embedded handlers can raise, mirroring the Python
exceptions that can escape the code in `views.py`. -/
inductive DjangoError where
  | typeError (msg : String)
  | doesNotExist (model : String)
  | multipleObjectsReturned (model : String)
  | validationError
  | unboundLocal (name : String)
  deriving DecidableEq, Repr

/-- Response bodies produced by the handlers in `views.py`: the error
dicts of the deletion guards, the placeholder text, serialized records,
and the empty body of a 204. -/
inductive Body where
  | errorBody (msg : String)
  | text (s : String)
  | customerRepr (c : Customer)
  | orderRepr (o : Order)
  | checkoutShape (cart_id : Nat)
  | empty
  deriving DecidableEq, Repr

/-- An HTTP response: status code and body. -/
structure Response where
  status : Nat
  body : Body
  deriving DecidableEq, Repr

def HTTP_200_OK : Nat := 200
def HTTP_201_CREATED : Nat := 201
def HTTP_204_NO_CONTENT : Nat := 204
def HTTP_404_NOT_FOUND : Nat := 404
def HTTP_405_METHOD_NOT_ALLOWED : Nat := 405

/-- `Model.objects.get(...)`: exactly one match returns the row, zero
raises `DoesNotExist`, several raise `MultipleObjectsReturned`. -/
def objectsGet {α : Type} (model : String) (rows : List α) (p : α → Bool) :
    Except DjangoError α :=
  match rows.filter p with
  | [x] => Except.ok x
  | [] => Except.error (DjangoError.doesNotExist model)
  | _ => Except.error (DjangoError.multipleObjectsReturned model)

/-- The DRF permission classes named in `views.py`. -/
inductive Permission where
  | AllowAny
  | IsAuthenticated
  | IsAdminUser
  | IsAdminOrReadOnly
  | ViewCustomerHistoryPermission
  deriving DecidableEq, Repr

/-- Whether a single DRF permission grants a user access, per the
documented semantics of each class (`IsAdminUser` checks `is_staff`,
`IsAuthenticated` checks `is_authenticated`, `AllowAny` always grants).
`IsAdminOrReadOnly` and `ViewCustomerHistoryPermission` come from modules
outside the provided sources and no theorem below depends on their grant
semantics; they are embedded as staff-gated so that they are strictly
stronger than `AllowAny` and `IsAuthenticated`. -/
def permissionPasses (p : Permission) (u : User) : Bool :=
  match p with
  | Permission.AllowAny => true
  | Permission.IsAuthenticated => u.is_authenticated
  | Permission.IsAdminUser => u.is_staff
  | Permission.IsAdminOrReadOnly => u.is_staff
  | Permission.ViewCustomerHistoryPermission => u.is_staff

/-- DRF `check_permissions`: every resolved permission must grant. -/
def checkPermissions (ps : List Permission) (u : User) : Bool :=
  ps.all (fun p => permissionPasses p u)

/-- Request payload shapes the handlers read from `request.data`. -/
inductive ReqData where
  | none
  | customer (d : CustomerProfile)
  | checkout (cart_id : Nat)
  | raw (s : String)
  deriving DecidableEq, Repr

/-- An incoming request as the handlers see it: its method, the
requesting user, and its payload. -/
structure Request where
  method : Method
  user : User
  data : ReqData
  deriving DecidableEq, Repr

/-- The serializer classes that `get_serializer_class` overrides choose
between in `views.py`. -/
inductive SerializerClass where
  | ProductSerializer
  | CollectionSerializer
  | ReviewSerializer
  | CartSerializer
  | CartItemSerializer
  | AddCartItemSerializer
  | UpdateCartItemSerializer
  | CustomerSerializer
  | OrderSerializer
  | CreateOrderSerializer
  | UpdateOrderSerializer
  deriving DecidableEq, Repr

/-- The message of the error dict returned by `ProductViewSet.destroy`
(the apostrophe of the source message is the escaped `\x27`). -/
def productDeleteErrorMsg : String :=
  "Can\x27t delete products as it contains one or more order items."

/-- The message of the error dict returned by `CollectionViewSet.destroy`
(the apostrophe of the source message is the escaped `\x27`). -/
def collectionDeleteErrorMsg : String :=
  "Can\x27t delete collection as it contains one or more products."

/-- DRF `DestroyModelMixin.destroy` for products, reached through
`super().destroy(...)`: `get_object()` raises `Http404` (a 404 response)
when no product has primary key `pk`, otherwise the product is deleted
and the response is `204 No Content`. -/
def superDestroyProduct (db : DB) (pk : Nat) : Response × DB :=
  if db.products.any (fun p => p.id == pk) then
    ({ status := HTTP_204_NO_CONTENT, body := Body.empty },
     { db with products := db.products.filter (fun p => p.id != pk) })
  else
    ({ status := HTTP_404_NOT_FOUND, body := Body.errorBody "Not found." }, db)

/-- `ProductViewSet.destroy`: when
`OrderItem.objects.filter(product_id=kwargs["pk"]).count() > 0` it
returns the 405 error response without touching the database, otherwise
it defers to `super().destroy`. -/
def productDestroy (db : DB) (pk : Nat) : Response × DB :=
  if (db.orderItems.filter (fun oi => oi.product_id == pk)).length > 0 then
    ({ status := HTTP_405_METHOD_NOT_ALLOWED,
       body := Body.errorBody productDeleteErrorMsg }, db)
  else
    superDestroyProduct db pk

/-- DRF `DestroyModelMixin.destroy` for collections, reached through
`super().destroy(...)`: 404 when no collection has primary key `pk`,
otherwise delete and answer `204 No Content`. -/
def superDestroyCollection (db : DB) (pk : Nat) : Response × DB :=
  if db.collections.any (fun c => c.id == pk) then
    ({ status := HTTP_204_NO_CONTENT, body := Body.empty },
     { db with collections := db.collections.filter (fun c => c.id != pk) })
  else
    ({ status := HTTP_404_NOT_FOUND, body := Body.errorBody "Not found." }, db)

/-- Embeds the call `Collection.objects.count("products")` from
`CollectionViewSet.destroy`.  Django managers forward `count` to
`QuerySet.count`, whose signature is `count(self)` and takes no further
positional argument, so this call raises
`TypeError: count() takes 1 positional argument but 2 were given`
before any row is inspected. -/
def collectionObjectsCountProducts (_db : DB) : Except DjangoError Nat :=
  Except.error
    (DjangoError.typeError "count() takes 1 positional argument but 2 were given")

/-- `CollectionViewSet.destroy` as written in `views.py`: it first
evaluates `Collection.objects.count("products")`; only if that produced
a number would it compare against `0` and either return the 405 error
response or defer to `super().destroy`. -/
def collectionDestroy (db : DB) (pk : Nat) : Except DjangoError (Response × DB) := do
  let c ← collectionObjectsCountProducts db
  if c > 0 then
    pure ({ status := HTTP_405_METHOD_NOT_ALLOWED,
            body := Body.errorBody collectionDeleteErrorMsg }, db)
  else
    pure (superDestroyCollection db pk)

/-- `ReviewViewSet.get_queryset`:
`Review.objects.filter(product_id=self.kwargs["product_pk"])`. -/
def reviewGetQueryset (db : DB) (product_pk : Nat) : List Review :=
  db.reviews.filter (fun r => r.product_id == product_pk)

/-- `CartItemViewSet.http_method_names`. -/
def cartItemHttpMethodNames : List Method :=
  [Method.GET, Method.POST, Method.PATCH, Method.DELETE]

/-- `CartItemViewSet.get_serializer_class`: `AddCartItemSerializer` for
POST, `UpdateCartItemSerializer` for PATCH, `CartItemSerializer`
otherwise. -/
def cartItemGetSerializerClass (m : Method) : SerializerClass :=
  if m == Method.POST then SerializerClass.AddCartItemSerializer
  else if m == Method.PATCH then SerializerClass.UpdateCartItemSerializer
  else SerializerClass.CartItemSerializer

/-- `CartItemViewSet.get_queryset`:
`CartItem.objects.filter(cart_id=self.kwargs["cart_pk"])` (the
`select_related("product")` only prefetches and does not change the
selected rows). -/
def cartItemGetQueryset (db : DB) (cart_pk : Nat) : List CartItem :=
  db.cartItems.filter (fun ci => ci.cart_id == cart_pk)

/-- `CustomerViewSet.permission_classes`, the class-level default. -/
def customerPermissionClasses : List Permission :=
  [Permission.IsAdminUser]

/-- `CustomerViewSet.get_permissions`: `[AllowAny()]` for GET requests,
`[IsAuthenticated()]` for every other method. -/
def customerGetPermissions (m : Method) : List Permission :=
  if m == Method.GET then [Permission.AllowAny]
  else [Permission.IsAuthenticated]

/-- `CustomerSerializer(customer, data=...).save()`: updating an existing
customer record with a validated profile payload keeps its identity and
replaces the profile fields.  (The serializer itself lives outside the
provided sources; this is the update contract the spec describes for
`me` PUT.) -/
def customerSerializerSave (c : Customer) (d : CustomerProfile) : Customer :=
  { c with profile := d }

/-- `CustomerViewSet.me`, parametric in the validation predicate of
`CustomerSerializer` (whose module is outside the provided sources):
look up `Customer.objects.get(user_id=request.user.id)`, then serialize
it (GET) or validate, save and serialize the update (PUT).  The routed
methods are only GET and PUT; on any other method the Python code would
reach `Response(serializer.data)` with `serializer` unbound. -/
def customerMe (valid : CustomerProfile → Bool) (db : DB) (req : Request) :
    Except DjangoError (Response × DB) := do
  let customer ← objectsGet "Customer" db.customers
    (fun c => c.user_id == req.user.id)
  if req.method == Method.GET then
    pure ({ status := HTTP_200_OK, body := Body.customerRepr customer }, db)
  else if req.method == Method.PUT then
    match req.data with
    | ReqData.customer d =>
        if valid d then
          let updated := customerSerializerSave customer d
          let customers := db.customers.map
            (fun c => if c.id == customer.id then updated else c)
          pure ({ status := HTTP_200_OK, body := Body.customerRepr updated },
                { db with customers := customers })
        else
          Except.error DjangoError.validationError
    | _ => Except.error DjangoError.validationError
  else
    Except.error (DjangoError.unboundLocal "serializer")

/-- `CustomerViewSet.history`: returns
`Response("not implemented yet")` whatever the request and `pk` are. -/
def customerHistory (_req : Request) (_pk : Option Nat) : Response :=
  { status := HTTP_200_OK, body := Body.text "not implemented yet" }

/-- `OrderViewSet.get_permissions`: `[IsAdminUser()]` for PATCH and
DELETE, `[IsAuthenticated()]` otherwise. -/
def orderGetPermissions (m : Method) : List Permission :=
  if m == Method.PATCH || m == Method.DELETE then [Permission.IsAdminUser]
  else [Permission.IsAuthenticated]

/-- Modelled from the spec: `OrderSerializer` (its module is outside the
provided sources) produces the full order representation of a saved
order. -/
def orderSerialize (o : Order) : Body :=
  Body.orderRepr o

/-- `OrderViewSet.create`, parametric in `CreateOrderSerializer`, whose
module is outside the provided sources: `validate` stands for
`is_valid` on the checkout payload against the current database, and
`save` for `serializer.save()` run with the requesting user id as
context, returning the saved order and the new database state.  On a
payload that is not the checkout shape or fails validation,
`is_valid(raise_exception=True)` raises; otherwise the handler answers
`201 Created` with `OrderSerializer(order).data`. -/
def orderViewSetCreate (validate : Nat → DB → Bool)
    (save : Nat → Nat → DB → Order × DB) (db : DB) (req : Request) :
    Except DjangoError (Response × DB) :=
  match req.data with
  | ReqData.checkout cart_id =>
      if validate cart_id db then
        let saved := save cart_id req.user.id db
        Except.ok ({ status := HTTP_201_CREATED,
                     body := orderSerialize saved.1 }, saved.2)
      else
        Except.error DjangoError.validationError
  | _ => Except.error DjangoError.validationError

/-- `OrderViewSet.get_serializer_class`: `CreateOrderSerializer` for
POST, `UpdateOrderSerializer` for PATCH, `OrderSerializer` otherwise. -/
def orderGetSerializerClass (m : Method) : SerializerClass :=
  if m == Method.POST then SerializerClass.CreateOrderSerializer
  else if m == Method.PATCH then SerializerClass.UpdateOrderSerializer
  else SerializerClass.OrderSerializer

/-- `OrderViewSet.get_queryset`: all orders for staff; otherwise
`Customer.objects.only("id").get(user_id=user.id)` followed by
`Order.objects.filter(customer_id=customer_id)` (Django resolves the
customer instance passed as `customer_id` to its primary key). -/
def orderGetQueryset (db : DB) (user : User) : Except DjangoError (List Order) :=
  if user.is_staff then
    Except.ok db.orders
  else do
    let customer ← objectsGet "Customer" db.customers
      (fun c => c.user_id == user.id)
    pure (db.orders.filter (fun o => o.customer_id == customer.id))

/-- A database with one collection (id 1) and no products at all, used to
exhibit the collection-deletion bug. -/
def collectionBugDB : DB :=
  { products := [], collections := [{ id := 1 }], orderItems := [],
    reviews := [], cartItems := [], customers := [], orders := [] }

/-- C1: REFUTED ON THE CODE (code bug).  In `collectionBugDB` no product
references collection 1, so by the claim a DELETE of collection 1 must
succeed; instead `CollectionViewSet.destroy` evaluates
`Collection.objects.count("products")`, which raises `TypeError` because
`QuerySet.count` takes no positional argument, so every collection DELETE
fails with a server error and no deletion ever happens. -/
theorem collectionViewSet_destroy_code_bug :
    (collectionBugDB.products.filter
      (fun p => p.collection_id == some 1)).length = 0 ∧
    collectionDestroy collectionBugDB 1 =
      Except.error (DjangoError.typeError
        "count() takes 1 positional argument but 2 were given") := by
  exact ⟨rfl, rfl⟩

/-- C5: on the cart-items route, `get_serializer_class` selects
`AddCartItemSerializer` for POST, `UpdateCartItemSerializer` for PATCH,
and the default `CartItemSerializer` for the other routed methods, which
by `http_method_names` are exactly GET and DELETE. -/
theorem cartItemViewSet_serializer_selection :
    cartItemGetSerializerClass Method.POST
        = SerializerClass.AddCartItemSerializer ∧
    cartItemGetSerializerClass Method.PATCH
        = SerializerClass.UpdateCartItemSerializer ∧
    cartItemGetSerializerClass Method.GET
        = SerializerClass.CartItemSerializer ∧
    cartItemGetSerializerClass Method.DELETE
        = SerializerClass.CartItemSerializer ∧
    cartItemHttpMethodNames
        = [Method.GET, Method.POST, Method.PATCH, Method.DELETE] := by
  decide

/-- C6: the nested child-resource querysets select exactly the reviews
whose `product_id` is the product id from the URL path, and exactly the
cart items whose `cart_id` is the cart id from the URL path. -/
theorem nested_queryset_scoping (db : DB) (product_pk cart_pk : Nat) :
    (∀ r : Review, r ∈ reviewGetQueryset db product_pk ↔
      r ∈ db.reviews ∧ r.product_id = product_pk) ∧
    (∀ ci : CartItem, ci ∈ cartItemGetQueryset db cart_pk ↔
      ci ∈ db.cartItems ∧ ci.cart_id = cart_pk) := by
  constructor
  · intro r
    simp [reviewGetQueryset, List.mem_filter]
  · intro ci
    simp [cartItemGetQueryset, List.mem_filter]

/-- C8: the `history` action returns the placeholder text
`"not implemented yet"` whatever the request and the `pk` in the URL. -/
theorem customerViewSet_history_placeholder (req : Request) (pk : Option Nat) :
    customerHistory req pk
      = { status := HTTP_200_OK, body := Body.text "not implemented yet" } := rfl

/-- C2: `ProductViewSet.destroy` on an existing product `pk`: when at
least one order item references the product, the response is the 405
error body and the database is unchanged; when none does, the deletion
succeeds with 204 and no product with id `pk` remains. -/
theorem productViewSet_destroy_guard (db : DB) (pk : Nat)
    (hex : db.products.any (fun p => p.id == pk) = true) :
    ((db.orderItems.filter (fun oi => oi.product_id == pk)).length > 0 →
      productDestroy db pk =
        ({ status := HTTP_405_METHOD_NOT_ALLOWED,
           body := Body.errorBody productDeleteErrorMsg }, db)) ∧
    ((db.orderItems.filter (fun oi => oi.product_id == pk)).length = 0 →
      (productDestroy db pk).1.status = HTTP_204_NO_CONTENT ∧
      ∀ p : Product, p ∈ (productDestroy db pk).2.products → p.id ≠ pk) := by
  constructor
  · intro h
    simp [productDestroy, h]
  · intro h
    have hno :
        ¬ (db.orderItems.filter (fun oi => oi.product_id == pk)).length > 0 := by
      omega
    refine ⟨by simp [productDestroy, hno, superDestroyProduct, hex], ?_⟩
    intro p hp
    simp only [productDestroy, hno, if_false, superDestroyProduct, hex,
      if_true] at hp
    simp [List.mem_filter] at hp
    exact hp.2

/-- Witness database for C2: product 1 exists and is referenced by one
order item. -/
def productGuardDB : DB :=
  { products := [{ id := 1, collection_id := none }], collections := [],
    orderItems := [{ id := 1, order_id := 1, product_id := 1 }],
    reviews := [], cartItems := [], customers := [], orders := [] }

/-- C2 witness: in `productGuardDB`, deleting product 1 is rejected with
the 405 error body and the database is unchanged. -/
theorem productViewSet_destroy_guard_witness :
    productDestroy productGuardDB 1 =
      ({ status := HTTP_405_METHOD_NOT_ALLOWED,
         body := Body.errorBody productDeleteErrorMsg }, productGuardDB) :=
  (productViewSet_destroy_guard productGuardDB 1 (by decide)).1 (by decide)

/-- C3: `OrderViewSet.get_queryset`: a staff user gets every order; a
non-staff user whose customer record is `cust` gets exactly the orders
whose `customer_id` is the id of that record. -/
theorem orderViewSet_get_queryset_scoping (db : DB) (user : User)
    (cust : Customer)
    (hcust : db.customers.filter (fun c => c.user_id == user.id) = [cust]) :
    (user.is_staff = true → orderGetQueryset db user = Except.ok db.orders) ∧
    (user.is_staff = false →
      orderGetQueryset db user =
        Except.ok (db.orders.filter (fun o => o.customer_id == cust.id)) ∧
      ∀ o : Order,
        o ∈ db.orders.filter (fun o => o.customer_id == cust.id) ↔
          o ∈ db.orders ∧ o.customer_id = cust.id) := by
  constructor
  · intro h
    simp [orderGetQueryset, h]
  · intro h
    refine ⟨by simp [orderGetQueryset, h, objectsGet, hcust], ?_⟩
    intro o
    simp [List.mem_filter]

/-- Witness database for C3: one customer (id 5, user 9) and two orders,
one of which belongs to customer 5. -/
def orderScopeDB : DB :=
  { products := [], collections := [], orderItems := [], reviews := [],
    cartItems := [],
    customers := [{ id := 5, user_id := 9,
                    profile := { phone := "555", birth_date := none } }],
    orders := [{ id := 1, customer_id := 5 }, { id := 2, customer_id := 6 }] }

/-- C3 witness: the non-staff user 9 sees exactly order 1 in
`orderScopeDB`. -/
theorem orderViewSet_get_queryset_scoping_witness :
    orderGetQueryset orderScopeDB
        { id := 9, is_staff := false, is_authenticated := true } =
      Except.ok [{ id := 1, customer_id := 5 }] := by
  have h := (orderViewSet_get_queryset_scoping orderScopeDB
    { id := 9, is_staff := false, is_authenticated := true }
    { id := 5, user_id := 9, profile := { phone := "555", birth_date := none } }
    (by decide)).2 rfl
  exact h.1

/-- C4: `OrderViewSet.create` on a valid checkout payload answers
`201 Created` with `OrderSerializer` applied to the saved order, and that
body is never the input checkout shape. -/
theorem orderViewSet_create_response (validate : Nat → DB → Bool)
    (save : Nat → Nat → DB → Order × DB) (db : DB) (req : Request)
    (cart_id : Nat) (hdata : req.data = ReqData.checkout cart_id)
    (hvalid : validate cart_id db = true) :
    orderViewSetCreate validate save db req =
      Except.ok ({ status := HTTP_201_CREATED,
                   body := orderSerialize (save cart_id req.user.id db).1 },
                 (save cart_id req.user.id db).2) ∧
    ∀ c : Nat,
      orderSerialize (save cart_id req.user.id db).1 ≠ Body.checkoutShape c := by
  constructor
  · simp [orderViewSetCreate, hdata, hvalid]
  · intro c
    simp [orderSerialize]

/-- C4 witness: with a serializer that accepts everything and saves order
42 for the customer of the requesting user, the response is 201 with the
order representation. -/
theorem orderViewSet_create_response_witness :
    orderViewSetCreate (fun _ _ => true)
        (fun _ _ db => ({ id := 42, customer_id := 5 }, db))
        orderScopeDB
        { method := Method.POST,
          user := { id := 9, is_staff := false, is_authenticated := true },
          data := ReqData.checkout 3 } =
      Except.ok ({ status := HTTP_201_CREATED,
                   body := Body.orderRepr { id := 42, customer_id := 5 } },
                 orderScopeDB) :=
  (orderViewSet_create_response (fun _ _ => true)
    (fun _ _ db => ({ id := 42, customer_id := 5 }, db)) orderScopeDB
    { method := Method.POST,
      user := { id := 9, is_staff := false, is_authenticated := true },
      data := ReqData.checkout 3 } 3 rfl rfl).1

/-- The database state after the `me` PUT branch saved profile `d` onto
customer `cust`: the record with `cust.id` is replaced, every other
record untouched. -/
def customerMePutState (db : DB) (cust : Customer) (d : CustomerProfile) : DB :=
  let customers := db.customers.map
    (fun c => if c.id == cust.id then customerSerializerSave cust d else c)
  { db with customers := customers }

/-- C7: the `me` action for a user whose customer record is `cust`:
GET answers 200 with the serialized record and leaves the database
unchanged; PUT with a valid profile payload answers 200 with the updated
record and saves exactly that update. -/
theorem customerViewSet_me_behaviour (valid : CustomerProfile → Bool)
    (db : DB) (req : Request) (cust : Customer) (d : CustomerProfile)
    (hcust : db.customers.filter (fun c => c.user_id == req.user.id) = [cust]) :
    (req.method = Method.GET →
      customerMe valid db req =
        Except.ok ({ status := HTTP_200_OK,
                     body := Body.customerRepr cust }, db)) ∧
    (req.method = Method.PUT → req.data = ReqData.customer d →
      valid d = true →
      customerMe valid db req =
        Except.ok ({ status := HTTP_200_OK,
                     body := Body.customerRepr (customerSerializerSave cust d) },
                   customerMePutState db cust d)) := by
  constructor
  · intro hm
    simp [customerMe, objectsGet, hcust, hm]
  · intro hm hd hv
    simp [customerMe, objectsGet, hcust, hm, hd, hv, customerMePutState,
      customerSerializerSave]

/-- Witness database for C7: one customer record for user 9. -/
def meDB : DB :=
  { products := [], collections := [], orderItems := [], reviews := [],
    cartItems := [],
    customers := [{ id := 5, user_id := 9,
                    profile := { phone := "555", birth_date := none } }],
    orders := [] }

/-- C7 witness: in `meDB`, GET on `me` by user 9 returns the serialized
customer 5 and leaves the database unchanged. -/
theorem customerViewSet_me_behaviour_witness :
    customerMe (fun _ => true) meDB
        { method := Method.GET,
          user := { id := 9, is_staff := false, is_authenticated := true },
          data := ReqData.none } =
      Except.ok ({ status := HTTP_200_OK,
                   body := Body.customerRepr
                     { id := 5, user_id := 9,
                       profile := { phone := "555", birth_date := none } } },
                 meDB) :=
  (customerViewSet_me_behaviour (fun _ => true) meDB
    { method := Method.GET,
      user := { id := 9, is_staff := false, is_authenticated := true },
      data := ReqData.none }
    { id := 5, user_id := 9, profile := { phone := "555", birth_date := none } }
    { phone := "555", birth_date := none } (by decide)).1 rfl

/-- C9: `CustomerViewSet.get_permissions` resolves GET requests to
`[AllowAny]`, which every caller passes, and every other method to
`[IsAuthenticated]`, which a caller passes exactly when authenticated;
the class-level `IsAdminUser` default is overridden and never part of
the resolved permissions. -/
theorem customerViewSet_get_permissions_override (m : Method) (u : User)
    (hm : m ≠ Method.GET) :
    checkPermissions (customerGetPermissions Method.GET) u = true ∧
    customerGetPermissions m = [Permission.IsAuthenticated] ∧
    (checkPermissions (customerGetPermissions m) u = true ↔
      u.is_authenticated = true) ∧
    Permission.IsAdminUser ∈ customerPermissionClasses ∧
    Permission.IsAdminUser ∉ customerGetPermissions m := by
  have hgp : customerGetPermissions m = [Permission.IsAuthenticated] := by
    simp [customerGetPermissions, hm]
  refine ⟨by simp [checkPermissions, customerGetPermissions, permissionPasses],
    hgp, ?_, by simp [customerPermissionClasses], by simp [hgp]⟩
  simp [checkPermissions, hgp, permissionPasses]

/-- C9 witness: an authenticated non-staff user passes the resolved
permission check for POST on the customer endpoints. -/
theorem customerViewSet_get_permissions_override_witness :
    checkPermissions (customerGetPermissions Method.POST)
        { id := 9, is_staff := false, is_authenticated := true } = true :=
  ((customerViewSet_get_permissions_override Method.POST
    { id := 9, is_staff := false, is_authenticated := true }
    (by decide)).2.2.1).mpr rfl

/-- C10: the `me` action for a user with no customer record raises an
uncaught `Customer.DoesNotExist` (a server error), instead of answering
with a client error or creating the record. -/
theorem customerViewSet_me_missing_customer (valid : CustomerProfile → Bool)
    (db : DB) (req : Request)
    (hnone : db.customers.filter (fun c => c.user_id == req.user.id) = []) :
    customerMe valid db req =
      Except.error (DjangoError.doesNotExist "Customer") := by
  simp only [customerMe, objectsGet, hnone]
  rfl

/-- C10 witness: with no customer records at all, `me` by user 9 raises
`Customer.DoesNotExist`. -/
theorem customerViewSet_me_missing_customer_witness :
    customerMe (fun _ => true) collectionBugDB
        { method := Method.GET,
          user := { id := 9, is_staff := false, is_authenticated := true },
          data := ReqData.none } =
      Except.error (DjangoError.doesNotExist "Customer") :=
  customerViewSet_me_missing_customer (fun _ => true) collectionBugDB
    { method := Method.GET,
      user := { id := 9, is_staff := false, is_authenticated := true },
      data := ReqData.none } (by decide)

end StoreApp
